import Mathlib

/-!
# Multi-view stereo widget (`src/ui/multi_view_stereo_widget.cc`)

A shallow embedding of the workspace logic of COLMAP's multi-view stereo
widget: the reader of the patch-match configuration
(`ReadRefImageNamesFromConfig`), the launch slots `Prepare` and `Run`, the
path getter `GetWorkspacePath`, and the rebuild `RefreshWorkspace` together
with `GenerateTableButtonWidget`.

Everything outside the translation unit is a parameter of the model:

* the file system, as seen through `boost::filesystem::status` and through
  `std::ifstream`, and the compile-time switch `CUDA_ENABLED` are the fields
  of `Host`; the widget probes the file system with the one-argument
  overloads of `is_directory` and `exists`, which raise `filesystem_error`
  when the status of the path cannot be determined, and it catches nothing;
* `StringTrim` and `JoinPaths` (declared in `util/misc.h`) are modelled from
  the specification's description.

Qt widgets are reduced to the data the slots read and write: the text of the
workspace line edit, the enabled flags of the two buttons, the rows of the
table, the threads handed to the thread control widget and the critical
message boxes shown.
-/

namespace colmap

/-! ## The host: file system and build configuration -/

/-- The enumeration `boost::filesystem::file_type`. -/
inductive file_type where
  | status_error
  | file_not_found
  | regular_file
  | directory_file
  | symlink_file
  | block_file
  | character_file
  | fifo_file
  | socket_file
  | type_unknown
  deriving DecidableEq, Repr

/-- What the widget can observe of the machine it runs on.

* `entries p` is the type `boost::filesystem::status` determines for the
  non-empty path `p`: `file_not_found` when the path does not resolve
  (`ENOENT`, `ENOTDIR`), `status_error` when the query fails for any other
  reason (`EACCES`, `ELOOP`, `ENAMETOOLONG`, an input/output error);
* `ifstream p` is `none` when `std::ifstream file(p)` does not open, and
  otherwise the sequence of lines `std::getline` yields until it fails;
* `CUDA_ENABLED` tells whether the build defines the macro of that name. -/
structure Host where
  entries : String → file_type
  ifstream : String → Option (List String)
  CUDA_ENABLED : Bool

/-- The type the status query determines for `p`. The empty path names no
file, so its status is `file_not_found`. -/
def Host.status (host : Host) (p : String) : file_type :=
  if p = "" then file_type.file_not_found else host.entries p

/-- A failure that ends a slot before its last statement. -/
inductive Fault where
  /-- A failed `CHECK(...)`: glog logs the condition and aborts. -/
  | check_failed
  /-- The expression `*reconstruction_` evaluated on a null pointer. -/
  | null_dereference
  /-- The exception `boost::filesystem::filesystem_error`, raised by a probe
  whose status query failed; no caller catches it. -/
  | filesystem_error
  deriving DecidableEq, Repr

/-- The call `boost::filesystem::exists(p)`, one-argument overload: raises
when the status query fails, and otherwise tells whether anything was
found. -/
def Host.filesystem_exists (host : Host) (p : String) : Except Fault Bool :=
  if host.status p = file_type.status_error then
    Except.error Fault.filesystem_error
  else
    Except.ok (decide (host.status p ≠ file_type.file_not_found))

/-- The call `boost::filesystem::is_directory(p)`, one-argument overload:
raises when the status query fails, and otherwise tells whether a directory
was found. -/
def Host.is_directory (host : Host) (p : String) : Except Fault Bool :=
  if host.status p = file_type.status_error then
    Except.error Fault.filesystem_error
  else
    Except.ok (decide (host.status p = file_type.directory_file))

/-- The operator `&&` between two probes: the right probe runs only when the
left one returned `true`; a raised error and a `false` pass through. -/
def andAlso (left right : Except Fault Bool) : Except Fault Bool :=
  match left with
  | Except.ok true => right
  | other => other

/-! ## Helpers of `util/misc.h` -/

/-- The C locale's `isspace`. -/
def isspace (c : Char) : Bool :=
  c == ' ' || c == '\t' || c == '\n' || c == '\x0b' || c == '\x0c' || c == '\r'

/-- Modelled from the spec: `StringTrim` is declared in `util/misc.h`, which
is not part of the sources at hand. "Lines are trimmed of surrounding
whitespace": leading and trailing `isspace` characters are removed. -/
def StringTrim (str : String) : String :=
  ⟨((str.data.dropWhile isspace).reverse.dropWhile isspace).reverse⟩

/-- Modelled from the spec: `JoinPaths` is declared in `util/misc.h`, which
is not part of the sources at hand. The specification writes a joined path
as `root/relative`. -/
def JoinPaths (left right : String) : String :=
  left ++ "/" ++ right

/-! ## `ReadRefImageNamesFromConfig` -/

/-- The locals of the reading loop that live across iterations. -/
structure ReadLocals where
  ref_image_name : String
  ref_image_names : List String
  deriving DecidableEq, Repr

/-- One iteration of `while (std::getline(file, line))`, lines 38 to 50. -/
def ReadLine (locals : ReadLocals) (raw : String) : ReadLocals :=
  let line := StringTrim raw
  if line.data.isEmpty || line.data.head? == some '#' then
    locals
  else if locals.ref_image_name.data.isEmpty then
    { ref_image_name := line
      ref_image_names := locals.ref_image_names ++ [line] }
  else
    { locals with ref_image_name := "" }

/-- The loop of `ReadRefImageNamesFromConfig` run over the lines of an opened
file, lines 34 to 53. -/
def ReadRefImageNames (lines : List String) : List String :=
  (lines.foldl ReadLine { ref_image_name := "", ref_image_names := [] }).ref_image_names

/-- The function `ReadRefImageNamesFromConfig(config_path)`. -/
def ReadRefImageNamesFromConfig (host : Host) (config_path : String) :
    Except Fault (List String) :=
  match host.ifstream config_path with
  | none => Except.error Fault.check_failed
  | some lines => Except.ok (ReadRefImageNames lines)

/-! ## The widget -/

/-- The class `Reconstruction`, seen through `NumRegImages()`. -/
structure Reconstruction where
  NumRegImages : Nat
  deriving DecidableEq, Repr

/-- The integer-valued members of `mvs::PatchMatch::Options`. -/
structure PatchMatchOptions where
  gpu_index : Int
  window_radius : Int
  num_samples : Int
  num_iterations : Int
  deriving DecidableEq, Repr

/-- The members of `OptionManager` the slots read. -/
structure OptionManager where
  image_path : String
  max_image_size : Int
  patch_match : PatchMatchOptions
  deriving DecidableEq, Repr

/-- The callback slots of `Thread` the widget registers on. -/
inductive ThreadCallback where
  | FINISHED_CALLBACK
  deriving DecidableEq, Repr

/-- The closures the widget registers as thread callbacks. -/
inductive Callback where
  /-- The lambda `[this]() { refresh_workspace_action_->trigger(); }`. -/
  | trigger_refresh_workspace_action
  deriving DecidableEq, Repr

/-- The thread objects the slots construct, with their constructor
arguments. -/
inductive ThreadJob where
  /-- The call `new COLMAPUndistorter(UndistortCameraOptions(),
  *reconstruction_, *options_->image_path, workspace_path)`. -/
  | COLMAPUndistorter (reconstruction : Reconstruction)
      (image_path workspace_path : String)
  /-- The call `new mvs::PatchMatchProcessor(patch_match, workspace_path,
  "COLMAP", max_image_size)`. -/
  | PatchMatchProcessor (options : PatchMatchOptions)
      (workspace_path workspace_format : String) (max_image_size : Int)
  deriving DecidableEq, Repr

/-- A constructed thread with the callbacks added to it. -/
structure Thread where
  job : ThreadJob
  callbacks : List (ThreadCallback × Callback)
  deriving DecidableEq, Repr

/-- One call `thread_control_widget_->StartThread(text, stoppable, thread)`. -/
structure StartedThread where
  progress_text : String
  stoppable : Bool
  thread : Thread
  deriving DecidableEq, Repr

/-- The cell widget `GenerateTableButtonWidget` returns: two buttons, each
with the path its handler reads and its enabled flag. -/
structure TableButtonWidget where
  depth_map_path : String
  depth_map_button_enabled : Bool
  normal_map_path : String
  normal_map_button_enabled : Bool
  deriving DecidableEq, Repr

/-- One row of `table_widget_`, columns 0 to 3; a cell is `none` until the
rebuild sets it. -/
structure TableRow where
  image_name_item : Option String
  image_button : Option String
  photometric : Option TableButtonWidget
  geometric : Option TableButtonWidget
  deriving DecidableEq, Repr

/-- A row as `setRowCount` creates it: no cell set. -/
def TableRow.blank : TableRow :=
  { image_name_item := none, image_button := none, photometric := none, geometric := none }

/-- The members of `MultiViewStereoWidget` the slots read or write, and the
two effects they have on the outside: started threads and critical message
boxes, each recorded in call order. -/
structure MultiViewStereoWidget where
  options_ : OptionManager
  reconstruction_ : Option Reconstruction
  workspace_path_text_ : String
  prepare_button_enabled : Bool
  run_button_enabled : Bool
  table_widget_ : List TableRow
  images_path_ : String
  depth_maps_path_ : String
  normal_maps_path_ : String
  thread_control_widget_ : List StartedThread
  message_boxes : List String
  deriving DecidableEq, Repr

/-- The result of running a slot: the fault that ended it, if any (`none`
when the slot returned), and the widget as it was when the slot returned or
when the fault occurred. -/
structure Outcome where
  widget : MultiViewStereoWidget
  fault : Option Fault
  deriving DecidableEq, Repr

/-- The call `QMessageBox::critical(this, "", tr(text))`. -/
def MultiViewStereoWidget.critical (w : MultiViewStereoWidget) (text : String) :
    MultiViewStereoWidget :=
  { w with message_boxes := w.message_boxes ++ [text] }

/-- The call `thread_control_widget_->StartThread(text, stoppable, thread)`. -/
def MultiViewStereoWidget.StartThread (w : MultiViewStereoWidget)
    (progress_text : String) (stoppable : Bool) (thread : Thread) :
    MultiViewStereoWidget :=
  { w with thread_control_widget_ :=
      w.thread_control_widget_ ++ [⟨progress_text, stoppable, thread⟩] }

/-- The method `MultiViewStereoWidget::GetWorkspacePath`, lines 241 to 250:
the returned string and the widget afterwards, or the error the probe on
line 244 raised. -/
def GetWorkspacePath (host : Host) (w : MultiViewStereoWidget) :
    Except Fault (String × MultiViewStereoWidget) :=
  let workspace_path := w.workspace_path_text_
  match host.is_directory workspace_path with
  | Except.error fault => Except.error fault
  | Except.ok true => Except.ok (workspace_path, w)
  | Except.ok false => Except.ok ("", w.critical "Invalid workspace path")

/-- The method `MultiViewStereoWidget::Prepare`, lines 188 to 205. The
branch on the reconstruction shows a message box and falls through to the
construction of the undistorter. -/
def Prepare (host : Host) (w : MultiViewStereoWidget) : Outcome :=
  match GetWorkspacePath host w with
  | Except.error fault => ⟨w, some fault⟩
  | Except.ok (workspace_path, w) =>
    if workspace_path.data.isEmpty then
      ⟨w, none⟩
    else
      let w :=
        if w.reconstruction_.isNone ||
            (w.reconstruction_.any fun r => decide (r.NumRegImages < 2)) then
          w.critical "No reconstruction selected in main window"
        else w
      match w.reconstruction_ with
      | none => ⟨w, some Fault.null_dereference⟩
      | some reconstruction =>
        let undistorter : Thread :=
          { job := ThreadJob.COLMAPUndistorter reconstruction
              w.options_.image_path workspace_path
            callbacks := [(ThreadCallback.FINISHED_CALLBACK,
              Callback.trigger_refresh_workspace_action)] }
        ⟨w.StartThread "Preparing..." true undistorter, none⟩

/-- The method `MultiViewStereoWidget::Run`, lines 207 to 223. -/
def Run (host : Host) (w : MultiViewStereoWidget) : Outcome :=
  match GetWorkspacePath host w with
  | Except.error fault => ⟨w, some fault⟩
  | Except.ok (workspace_path, w) =>
    if workspace_path.data.isEmpty then
      ⟨w, none⟩
    else if host.CUDA_ENABLED then
      let processor : Thread :=
        { job := ThreadJob.PatchMatchProcessor w.options_.patch_match
            workspace_path "COLMAP" w.options_.max_image_size
          callbacks := [(ThreadCallback.FINISHED_CALLBACK,
            Callback.trigger_refresh_workspace_action)] }
      ⟨w.StartThread "Processing..." true processor, none⟩
    else
      ⟨w.critical "CUDA not supported", none⟩

/-- The method `MultiViewStereoWidget::GenerateTableButtonWidget`, lines 315
to 357. A button is created enabled and disabled when its file does not
exist; the probes on lines 327 and 342 may raise. -/
def GenerateTableButtonWidget (host : Host) (w : MultiViewStereoWidget)
    (image_name suffix : String) : Except Fault TableButtonWidget :=
  let depth_map_path := JoinPaths w.depth_maps_path_ (image_name ++ suffix)
  let normal_map_path := JoinPaths w.normal_maps_path_ (image_name ++ suffix)
  match host.filesystem_exists depth_map_path with
  | Except.error fault => Except.error fault
  | Except.ok depth_map_exists =>
    match host.filesystem_exists normal_map_path with
    | Except.error fault => Except.error fault
    | Except.ok normal_map_exists =>
      Except.ok
        { depth_map_path := depth_map_path
          depth_map_button_enabled := depth_map_exists
          normal_map_path := normal_map_path
          normal_map_button_enabled := normal_map_exists }

/-- The body of the loop `for (size_t i = 0; i < image_names.size(); ++i)`,
lines 290 to 309: row `i` as the body left it, and the error that ended the
body, if any. A cell widget is set only after its argument was built. -/
def RefreshRow (host : Host) (w : MultiViewStereoWidget) (image_name : String) :
    TableRow × Option Fault :=
  let row : TableRow :=
    { image_name_item := some image_name
      image_button := some (JoinPaths w.images_path_ image_name)
      photometric := none
      geometric := none }
  match GenerateTableButtonWidget host w image_name ".photometric.bin" with
  | Except.error fault => (row, some fault)
  | Except.ok photometric =>
    let row := { row with photometric := some photometric }
    match GenerateTableButtonWidget host w image_name ".geometric.bin" with
    | Except.error fault => (row, some fault)
    | Except.ok geometric => ({ row with geometric := some geometric }, none)

/-- The loop of lines 289 to 310 over the rows `setRowCount` created on line
287: the rows as the loop left them, and the error that ended it, if any.
The rows after the one whose body raised stay blank. -/
def RefreshRows (host : Host) (w : MultiViewStereoWidget) :
    List String → List TableRow × Option Fault
  | [] => ([], none)
  | image_name :: rest =>
    match RefreshRow host w image_name with
    | (row, some fault) => (row :: rest.map (fun _ => TableRow.blank), some fault)
    | (row, none) =>
      ((row :: (RefreshRows host w rest).1), (RefreshRows host w rest).2)

/-- The condition of the `if` statement on lines 272 to 278, for the
workspace path `workspace_path`. -/
def RunChecks (host : Host) (workspace_path : String) : Except Fault Bool :=
  andAlso (andAlso (andAlso (andAlso (andAlso
    (host.is_directory (JoinPaths workspace_path "images"))
    (host.is_directory (JoinPaths workspace_path "dense/depth_maps")))
    (host.is_directory (JoinPaths workspace_path "dense/normal_maps")))
    (host.is_directory (JoinPaths workspace_path "sparse")))
    (host.is_directory (JoinPaths workspace_path "dense/consistency_graphs")))
    (host.filesystem_exists (JoinPaths workspace_path "dense/patch-match.cfg"))

/-- The method `MultiViewStereoWidget::RefreshWorkspace`, lines 252 to 313. -/
def RefreshWorkspace (host : Host) (w : MultiViewStereoWidget) : Outcome :=
  let w := { w with table_widget_ := [] }
  let workspace_path := w.workspace_path_text_
  match host.is_directory workspace_path with
  | Except.error fault => ⟨w, some fault⟩
  | Except.ok false =>
    ⟨{ w with prepare_button_enabled := false, run_button_enabled := false }, none⟩
  | Except.ok true =>
    let w := { w with prepare_button_enabled := true }
    let w := { w with
      images_path_ := JoinPaths workspace_path "images"
      depth_maps_path_ := JoinPaths workspace_path "dense/depth_maps"
      normal_maps_path_ := JoinPaths workspace_path "dense/normal_maps" }
    let config_path := JoinPaths workspace_path "dense/patch-match.cfg"
    match RunChecks host workspace_path with
    | Except.error fault => ⟨w, some fault⟩
    | Except.ok false => ⟨{ w with run_button_enabled := false }, none⟩
    | Except.ok true =>
      let w := { w with run_button_enabled := true }
      match ReadRefImageNamesFromConfig host config_path with
      | Except.error fault => ⟨w, some fault⟩
      | Except.ok image_names =>
        ⟨{ w with table_widget_ := (RefreshRows host w image_names).1 },
          (RefreshRows host w image_names).2⟩

/-- Running a registered callback. The constructor connects
the `triggered` signal of `refresh_workspace_action_` to `RefreshWorkspace`. -/
def Callback.invoke : Callback → Host → MultiViewStereoWidget → Outcome
  | Callback.trigger_refresh_workspace_action => RefreshWorkspace

/-! ## Vocabulary of the specification -/

/-- A trimmed line the reader skips: empty, or beginning with `#`. -/
def IsSkipped (line : String) : Bool :=
  line.data.isEmpty || line.data.head? == some '#'

/-- The surviving lines of a configuration: the whitespace-trimmed input
lines that are neither empty nor begin with `#`, in input order. -/
def SurvivingLines (lines : List String) : List String :=
  (lines.map StringTrim).filter fun line => !IsSkipped line

/-- Every second element of a list, starting with the first one when the
flag is set and with the second one otherwise. -/
def takeAlternate {α : Type} : Bool → List α → List α
  | _, [] => []
  | true, a :: rest => a :: takeAlternate false rest
  | false, _ :: rest => takeAlternate true rest

/-- The state of the rebuild after line 268 in a workspace that is a
directory: table cleared, prepare button enabled, member paths set. -/
def MultiViewStereoWidget.entered (w : MultiViewStereoWidget) : MultiViewStereoWidget :=
  { w with
    table_widget_ := []
    prepare_button_enabled := true
    images_path_ := JoinPaths w.workspace_path_text_ "images"
    depth_maps_path_ := JoinPaths w.workspace_path_text_ "dense/depth_maps"
    normal_maps_path_ := JoinPaths w.workspace_path_text_ "dense/normal_maps" }

/-- A prepared workspace `/ws`: the five directories, the configuration file
and a single artifact, the photometric depth map of `a.jpg`. -/
def workspaceEntries (p : String) : file_type :=
  if p = "/ws" ∨ p = "/ws/images" ∨ p = "/ws/dense/depth_maps" ∨
      p = "/ws/dense/normal_maps" ∨ p = "/ws/sparse" ∨
      p = "/ws/dense/consistency_graphs" then
    file_type.directory_file
  else if p = "/ws/dense/patch-match.cfg" ∨
      p = "/ws/dense/depth_maps/a.jpg.photometric.bin" then
    file_type.regular_file
  else
    file_type.file_not_found

/-- The host of the prepared workspace; its configuration lists `a.jpg` and
`b.jpg`, each followed by a line of source images. -/
def workspaceHost (cuda : Bool) : Host :=
  { entries := workspaceEntries
    ifstream := fun p =>
      if p = "/ws/dense/patch-match.cfg" then
        some ["# c", "a.jpg", "__auto__, 20", "b.jpg", "__auto__, 20"]
      else none
    CUDA_ENABLED := cuda }

/-- A host on which every file opens and reads as the five-line
configuration of the specification. -/
def configHost : Host :=
  { entries := fun _ => file_type.regular_file
    ifstream := fun _ => some ["# c", "img1.jpg", "pose1", "img2.jpg", "pose2"]
    CUDA_ENABLED := false }

/-- The prepared workspace with `dense/patch-match.cfg` replaced by a
directory of that name; opened for reading, it yields no line. -/
def directoryConfigHost : Host :=
  { entries := fun p =>
      if p = "/ws/dense/patch-match.cfg" then file_type.directory_file
      else workspaceEntries p
    ifstream := fun _ => some []
    CUDA_ENABLED := false }

/-- A freshly constructed widget whose line edit holds `text`, shown with the
given reconstruction. -/
def freshWidget (text : String) (reconstruction : Option Reconstruction) :
    MultiViewStereoWidget :=
  { options_ :=
      { image_path := "/photos"
        max_image_size := 1600
        patch_match :=
          { gpu_index := -1, window_radius := 5, num_samples := 15, num_iterations := 5 } }
    reconstruction_ := reconstruction
    workspace_path_text_ := text
    prepare_button_enabled := false
    run_button_enabled := false
    table_widget_ := []
    images_path_ := ""
    depth_maps_path_ := ""
    normal_maps_path_ := ""
    thread_control_widget_ := []
    message_boxes := [] }

/-- The prepared workspace on which the status of the one path `failing`
cannot be determined (a symbolic-link loop, a name over the length limit, a
directory without search permission above it). -/
def failingHost (failing : String) : Host :=
  { entries := fun p =>
      if p = failing then file_type.status_error else workspaceEntries p
    ifstream := (workspaceHost true).ifstream
    CUDA_ENABLED := true }

/-! ## The reading loop -/

theorem takeAlternate_getElem_opt {α : Type} (l : List α) :
    ∀ (b : Bool) (i : Nat),
      (takeAlternate b l)[i]? = l[2 * i + (if b then 0 else 1)]? := by
  induction l with
  | nil => intro b i; simp [takeAlternate]
  | cons a rest ih =>
    intro b i
    cases b with
    | false =>
      simp only [takeAlternate, ih true i]
      simp
    | true =>
      cases i with
      | zero => simp [takeAlternate]
      | succ j =>
        simp only [takeAlternate, List.getElem?_cons_succ, ih false j]
        have hidx : 2 * (j + 1) = (2 * j + 1) + 1 := by ring
        simp [hidx]

theorem SurvivingLines_cons (raw : String) (rest : List String) :
    SurvivingLines (raw :: rest) =
      if IsSkipped (StringTrim raw) then SurvivingLines rest
      else StringTrim raw :: SurvivingLines rest := by
  unfold SurvivingLines
  cases h : IsSkipped (StringTrim raw) <;> simp [List.filter, h]

theorem foldl_ReadLine (lines : List String) :
    ∀ locals : ReadLocals,
      (lines.foldl ReadLine locals).ref_image_names =
        locals.ref_image_names ++
          takeAlternate locals.ref_image_name.data.isEmpty (SurvivingLines lines) := by
  induction lines with
  | nil => intro locals; simp [SurvivingLines, takeAlternate]
  | cons raw rest ih =>
    intro locals
    rw [List.foldl_cons, ih, SurvivingLines_cons]
    cases hskip : IsSkipped (StringTrim raw) with
    | true =>
      have : ReadLine locals raw = locals := by
        unfold IsSkipped at hskip
        simp only [ReadLine, hskip, if_true]
      rw [this]; simp
    | false =>
      have hne : (StringTrim raw).data.isEmpty = false := by
        unfold IsSkipped at hskip
        rw [Bool.or_eq_false_iff] at hskip
        exact hskip.1
      cases hname : locals.ref_image_name.data.isEmpty with
      | true =>
        have : ReadLine locals raw =
            { ref_image_name := StringTrim raw
              ref_image_names := locals.ref_image_names ++ [StringTrim raw] } := by
          unfold IsSkipped at hskip
          simp [ReadLine, hskip, hname]
        rw [this]
        simp [hne, takeAlternate]
      | false =>
        have : ReadLine locals raw = { locals with ref_image_name := "" } := by
          unfold IsSkipped at hskip
          simp [ReadLine, hskip, hname]
        rw [this]
        simp [takeAlternate]

theorem ReadRefImageNames_eq (lines : List String) :
    ReadRefImageNames lines = takeAlternate true (SurvivingLines lines) := by
  unfold ReadRefImageNames
  rw [foldl_ReadLine]
  simp

/-! ## Claims on the configuration reader -/

/-- C1: when the configuration file opens, `ReadRefImageNamesFromConfig`
returns the list whose `i`-th element is the `2 * i`-th surviving line (the
1st, 3rd, 5th, ... of them, in order), where the surviving lines are the
trimmed input lines that are neither empty nor begin with `#`; the five lines
of the specification give `img1.jpg`, `img2.jpg`, and an input without
surviving lines gives the empty list. -/
theorem ReadRefImageNamesFromConfig_alternate_survivors
    (host : Host) (config_path : String) (lines : List String)
    (hopen : host.ifstream config_path = some lines) :
    ∃ names : List String,
      ReadRefImageNamesFromConfig host config_path = Except.ok names ∧
      (∀ i : Nat, names[i]? = (SurvivingLines lines)[2 * i]?) ∧
      (lines = ["# c", "img1.jpg", "pose1", "img2.jpg", "pose2"] →
        names = ["img1.jpg", "img2.jpg"]) ∧
      (SurvivingLines lines = [] → names = []) := by
  refine ⟨ReadRefImageNames lines, ?_, ?_, ?_, ?_⟩
  · simp [ReadRefImageNamesFromConfig, hopen]
  · intro i
    rw [ReadRefImageNames_eq, takeAlternate_getElem_opt]
    simp
  · intro h
    subst h
    decide
  · intro h
    rw [ReadRefImageNames_eq, h]
    rfl

/-- C1, witness: the five-line configuration of the specification and the
empty file, read through `ReadRefImageNamesFromConfig`. -/
theorem ReadRefImageNamesFromConfig_alternate_survivors_witness :
    configHost.ifstream "/ws/dense/patch-match.cfg" =
        some ["# c", "img1.jpg", "pose1", "img2.jpg", "pose2"] ∧
      ReadRefImageNamesFromConfig configHost "/ws/dense/patch-match.cfg" =
        Except.ok ["img1.jpg", "img2.jpg"] ∧
      ReadRefImageNamesFromConfig directoryConfigHost "/ws/dense/patch-match.cfg" =
        Except.ok [] := by
  refine ⟨rfl, ?_, ?_⟩
  · obtain ⟨names, hok, _, hexample, _⟩ :=
      ReadRefImageNamesFromConfig_alternate_survivors configHost
        "/ws/dense/patch-match.cfg" _ rfl
    rw [hok, hexample rfl]
  · obtain ⟨names, hok, _, _, hempty⟩ :=
      ReadRefImageNamesFromConfig_alternate_survivors directoryConfigHost
        "/ws/dense/patch-match.cfg" [] rfl
    rw [hok, hempty rfl]

/-- C7: `ReadRefImageNamesFromConfig` fails, with the fatal `CHECK` on
`file.is_open()`, exactly when the file cannot be opened, and returns a list
of names exactly when it can. -/
theorem ReadRefImageNamesFromConfig_fails_iff_unopenable
    (host : Host) (config_path : String) :
    (ReadRefImageNamesFromConfig host config_path = Except.error Fault.check_failed ↔
        host.ifstream config_path = none) ∧
      ((∃ names, ReadRefImageNamesFromConfig host config_path = Except.ok names) ↔
        ∃ lines, host.ifstream config_path = some lines) := by
  unfold ReadRefImageNamesFromConfig
  cases host.ifstream config_path <;> simp

/-! ## The probes -/

theorem is_directory_eq_ok_true (host : Host) (p : String) :
    host.is_directory p = Except.ok true ↔ host.status p = file_type.directory_file := by
  unfold Host.is_directory
  by_cases herr : host.status p = file_type.status_error
  · simp [herr]
  · simp [herr]

theorem is_directory_eq_ok_false (host : Host) (p : String) :
    host.is_directory p = Except.ok false ↔
      host.status p ≠ file_type.status_error ∧
      host.status p ≠ file_type.directory_file := by
  unfold Host.is_directory
  by_cases herr : host.status p = file_type.status_error
  · simp [herr]
  · simp [herr]

theorem is_directory_eq_error (host : Host) (p : String) (fault : Fault) :
    host.is_directory p = Except.error fault ↔
      host.status p = file_type.status_error ∧ fault = Fault.filesystem_error := by
  unfold Host.is_directory
  by_cases herr : host.status p = file_type.status_error
  · simp [herr, eq_comm]
  · simp [herr]

theorem filesystem_exists_eq_error (host : Host) (p : String) (fault : Fault) :
    host.filesystem_exists p = Except.error fault ↔
      host.status p = file_type.status_error ∧ fault = Fault.filesystem_error := by
  unfold Host.filesystem_exists
  by_cases herr : host.status p = file_type.status_error
  · simp [herr, eq_comm]
  · simp [herr]

theorem andAlso_eq_error (left right : Except Fault Bool) (fault : Fault) :
    andAlso left right = Except.error fault →
      left = Except.error fault ∨ right = Except.error fault := by
  unfold andAlso
  cases left with
  | error other => intro h; exact Or.inl h
  | ok b => cases b <;> simp

theorem RunChecks_eq_error (host : Host) (workspace_path : String) (fault : Fault) :
    RunChecks host workspace_path = Except.error fault → fault = Fault.filesystem_error := by
  unfold RunChecks
  intro h
  rcases andAlso_eq_error _ _ _ h with h | h
  · rcases andAlso_eq_error _ _ _ h with h | h
    · rcases andAlso_eq_error _ _ _ h with h | h
      · rcases andAlso_eq_error _ _ _ h with h | h
        · rcases andAlso_eq_error _ _ _ h with h | h
          · exact ((is_directory_eq_error _ _ _).1 h).2
          · exact ((is_directory_eq_error _ _ _).1 h).2
        · exact ((is_directory_eq_error _ _ _).1 h).2
      · exact ((is_directory_eq_error _ _ _).1 h).2
    · exact ((is_directory_eq_error _ _ _).1 h).2
  · exact ((filesystem_exists_eq_error _ _ _).1 h).2

/-! ## The rebuild, case by case -/

theorem RefreshWorkspace_cases (host : Host) (w : MultiViewStereoWidget) :
    (host.status w.workspace_path_text_ = file_type.status_error ∧
      RefreshWorkspace host w =
        ⟨{ w with table_widget_ := [] }, some Fault.filesystem_error⟩) ∨
    (host.is_directory w.workspace_path_text_ = Except.ok false ∧
      RefreshWorkspace host w =
        ⟨{ w with table_widget_ := []
                  prepare_button_enabled := false
                  run_button_enabled := false }, none⟩) ∨
    (host.is_directory w.workspace_path_text_ = Except.ok true ∧
      RunChecks host w.workspace_path_text_ = Except.error Fault.filesystem_error ∧
      RefreshWorkspace host w = ⟨w.entered, some Fault.filesystem_error⟩) ∨
    (host.is_directory w.workspace_path_text_ = Except.ok true ∧
      RunChecks host w.workspace_path_text_ = Except.ok false ∧
      RefreshWorkspace host w =
        ⟨{ w.entered with run_button_enabled := false }, none⟩) ∨
    (host.is_directory w.workspace_path_text_ = Except.ok true ∧
      RunChecks host w.workspace_path_text_ = Except.ok true ∧
      ReadRefImageNamesFromConfig host
        (JoinPaths w.workspace_path_text_ "dense/patch-match.cfg")
          = Except.error Fault.check_failed ∧
      RefreshWorkspace host w =
        ⟨{ w.entered with run_button_enabled := true }, some Fault.check_failed⟩) ∨
    (host.is_directory w.workspace_path_text_ = Except.ok true ∧
      RunChecks host w.workspace_path_text_ = Except.ok true ∧
      ∃ image_names : List String,
        ReadRefImageNamesFromConfig host
          (JoinPaths w.workspace_path_text_ "dense/patch-match.cfg")
            = Except.ok image_names ∧
        RefreshWorkspace host w =
          ⟨{ w.entered with
              run_button_enabled := true
              table_widget_ :=
                (RefreshRows host { w.entered with run_button_enabled := true }
                  image_names).1 },
            (RefreshRows host { w.entered with run_button_enabled := true }
              image_names).2⟩) := by
  cases hdir : host.is_directory w.workspace_path_text_ with
  | error fault =>
    obtain ⟨hstatus, hfault⟩ := (is_directory_eq_error _ _ _).1 hdir
    subst hfault
    left
    exact ⟨hstatus, by simp [RefreshWorkspace, hdir]⟩
  | ok b =>
    cases b with
    | false =>
      right; left
      exact ⟨rfl, by simp [RefreshWorkspace, hdir]⟩
    | true =>
      right; right
      cases hchecks : RunChecks host w.workspace_path_text_ with
      | error fault =>
        have hfault := RunChecks_eq_error _ _ _ hchecks
        subst hfault
        left
        exact ⟨rfl, rfl, by simp [RefreshWorkspace, hdir, hchecks, MultiViewStereoWidget.entered]⟩
      | ok c =>
        cases c with
        | false =>
          right; left
          exact ⟨rfl, rfl,
            by simp [RefreshWorkspace, hdir, hchecks, MultiViewStereoWidget.entered]⟩
        | true =>
          right; right
          cases hread : ReadRefImageNamesFromConfig host
              (JoinPaths w.workspace_path_text_ "dense/patch-match.cfg") with
          | error fault =>
            have hfault : fault = Fault.check_failed := by
              unfold ReadRefImageNamesFromConfig at hread
              cases hopen : host.ifstream
                  (JoinPaths w.workspace_path_text_ "dense/patch-match.cfg") with
              | none => rw [hopen] at hread; simp at hread; exact hread.symm
              | some lines => rw [hopen] at hread; simp at hread
            subst hfault
            left
            exact ⟨rfl, rfl, rfl,
              by simp [RefreshWorkspace, hdir, hchecks, hread, MultiViewStereoWidget.entered]⟩
          | ok image_names =>
            right
            exact ⟨rfl, rfl, image_names, rfl,
              by simp [RefreshWorkspace, hdir, hchecks, hread, MultiViewStereoWidget.entered]⟩

/-! ## The table loop -/

theorem GetWorkspacePath_of_directory (host : Host) (w : MultiViewStereoWidget)
    (hdir : host.is_directory w.workspace_path_text_ = Except.ok true) :
    GetWorkspacePath host w = Except.ok (w.workspace_path_text_, w) ∧
      w.workspace_path_text_.data.isEmpty = false := by
  refine ⟨by simp [GetWorkspacePath, hdir], ?_⟩
  cases hd : w.workspace_path_text_.data with
  | nil =>
    have hempty : w.workspace_path_text_ = "" := by
      cases hw : w.workspace_path_text_ with
      | mk data => rw [hw] at hd; simp at hd; rw [hd]
    rw [hempty] at hdir
    simp [Host.is_directory, Host.status] at hdir
  | cons c cs => rfl

theorem GetWorkspacePath_cases (host : Host) (w : MultiViewStereoWidget) :
    (host.status w.workspace_path_text_ = file_type.status_error ∧
      GetWorkspacePath host w = Except.error Fault.filesystem_error) ∨
    (host.is_directory w.workspace_path_text_ = Except.ok false ∧
      GetWorkspacePath host w = Except.ok ("", w.critical "Invalid workspace path")) ∨
    (host.is_directory w.workspace_path_text_ = Except.ok true ∧
      GetWorkspacePath host w = Except.ok (w.workspace_path_text_, w) ∧
      w.workspace_path_text_.data.isEmpty = false) := by
  cases hdir : host.is_directory w.workspace_path_text_ with
  | error fault =>
    obtain ⟨hstatus, hfault⟩ := (is_directory_eq_error _ _ _).1 hdir
    subst hfault
    exact Or.inl ⟨hstatus, by simp [GetWorkspacePath, hdir]⟩
  | ok b =>
    cases b with
    | false => exact Or.inr (Or.inl ⟨rfl, by simp [GetWorkspacePath, hdir]⟩)
    | true => exact Or.inr (Or.inr ⟨rfl, GetWorkspacePath_of_directory host w hdir⟩)

theorem Prepare_keeps_buttons (host : Host) (w : MultiViewStereoWidget) :
    (Prepare host w).widget.prepare_button_enabled = w.prepare_button_enabled ∧
      (Prepare host w).widget.run_button_enabled = w.run_button_enabled := by
  unfold Prepare
  rcases GetWorkspacePath_cases host w with ⟨_, h⟩ | ⟨_, h⟩ | ⟨_, h, hne⟩
  · rw [h]; exact ⟨rfl, rfl⟩
  · rw [h]; exact ⟨rfl, rfl⟩
  · rw [h]
    simp only [hne]
    cases hrec : w.reconstruction_ with
    | none => simp [MultiViewStereoWidget.critical, hrec]
    | some r =>
      by_cases hfew : r.NumRegImages < 2 <;>
        simp [MultiViewStereoWidget.critical, MultiViewStereoWidget.StartThread, hrec, hfew]

theorem Run_keeps_buttons (host : Host) (w : MultiViewStereoWidget) :
    (Run host w).widget.prepare_button_enabled = w.prepare_button_enabled ∧
      (Run host w).widget.run_button_enabled = w.run_button_enabled := by
  unfold Run
  rcases GetWorkspacePath_cases host w with ⟨_, h⟩ | ⟨_, h⟩ | ⟨_, h, hne⟩
  · rw [h]; exact ⟨rfl, rfl⟩
  · rw [h]; exact ⟨rfl, rfl⟩
  · rw [h]
    simp only [hne]
    cases host.CUDA_ENABLED <;>
      simp [MultiViewStereoWidget.critical, MultiViewStereoWidget.StartThread]

/-! ## Claims on the rebuild -/

/-- C5, as the specification states it, fails: on a path whose status cannot
be determined, and which therefore is no existing directory for the widget,
the probe of the rebuild raises `filesystem_error` and both buttons keep the
enabled state they had. -/
theorem RefreshWorkspace_raises_on_undeterminable_path :
    (failingHost "/mnt/ws").status "/mnt/ws" ≠ file_type.directory_file ∧
      (RefreshWorkspace (failingHost "/mnt/ws")
        { freshWidget "/mnt/ws" none with
            prepare_button_enabled := true
            run_button_enabled := true }).fault = some Fault.filesystem_error ∧
      (RefreshWorkspace (failingHost "/mnt/ws")
        { freshWidget "/mnt/ws" none with
            prepare_button_enabled := true
            run_button_enabled := true }).widget.prepare_button_enabled = true ∧
      (RefreshWorkspace (failingHost "/mnt/ws")
        { freshWidget "/mnt/ws" none with
            prepare_button_enabled := true
            run_button_enabled := true }).widget.run_button_enabled = true := by
  decide

/-- C5, amended: when the status of the workspace path can be determined and
is not that of a directory (nothing is found under the path, or something
that is not a directory), the rebuild returns without a fault and leaves both
buttons disabled, whatever they were before. -/
theorem RefreshWorkspace_invalid_path (host : Host) (w : MultiViewStereoWidget)
    (hprobe : host.status w.workspace_path_text_ ≠ file_type.status_error)
    (hinvalid : host.status w.workspace_path_text_ ≠ file_type.directory_file) :
    (RefreshWorkspace host w).fault = none ∧
      (RefreshWorkspace host w).widget.prepare_button_enabled = false ∧
      (RefreshWorkspace host w).widget.run_button_enabled = false := by
  have hdir := (is_directory_eq_ok_false host w.workspace_path_text_).2 ⟨hprobe, hinvalid⟩
  rcases RefreshWorkspace_cases host w with
    ⟨hstatus, _⟩ | ⟨_, hout⟩ | ⟨h, _⟩ | ⟨h, _⟩ | ⟨h, _⟩ | ⟨h, _⟩
  · exact absurd hstatus hprobe
  · rw [hout]; exact ⟨rfl, rfl, rfl⟩
  all_goals (rw [hdir] at h; simp at h)

/-- C5, witness: a path that does not exist, on a widget whose buttons were
both enabled. -/
theorem RefreshWorkspace_invalid_path_witness :
    (workspaceHost true).status "/nowhere" = file_type.file_not_found ∧
      (RefreshWorkspace (workspaceHost true)
        { freshWidget "/nowhere" none with
            prepare_button_enabled := true, run_button_enabled := true }).fault = none ∧
      (RefreshWorkspace (workspaceHost true)
        { freshWidget "/nowhere" none with
            prepare_button_enabled := true
            run_button_enabled := true }).widget.prepare_button_enabled = false ∧
      (RefreshWorkspace (workspaceHost true)
        { freshWidget "/nowhere" none with
            prepare_button_enabled := true
            run_button_enabled := true }).widget.run_button_enabled = false :=
  ⟨by decide, RefreshWorkspace_invalid_path (workspaceHost true)
    { freshWidget "/nowhere" none with
        prepare_button_enabled := true, run_button_enabled := true }
    (by decide) (by decide)⟩

/-- C10: after every rebuild, from any widget and whether it returned,
aborted on the `CHECK` or ended on a raised `filesystem_error`, a table with
at least one row implies that both buttons are enabled, and a disabled run
button implies an empty table. An enabled run button implies an enabled
prepare button after every rebuild in which no probe raised, from any widget,
and after every rebuild whatsoever from a widget in which that implication
held before; `Prepare` and `Run` leave both flags as they are, so the
implication, true of the two buttons as the constructor creates them, holds
before and after every rebuild the widget can run. -/
theorem RefreshWorkspace_rows_imply_ready (host : Host) (w : MultiViewStereoWidget) :
    ((RefreshWorkspace host w).widget.table_widget_ ≠ [] →
        (RefreshWorkspace host w).widget.run_button_enabled = true ∧
        (RefreshWorkspace host w).widget.prepare_button_enabled = true) ∧
      ((RefreshWorkspace host w).widget.run_button_enabled = false →
        (RefreshWorkspace host w).widget.table_widget_ = []) ∧
      ((RefreshWorkspace host w).fault ≠ some Fault.filesystem_error ∨
          (w.run_button_enabled = true → w.prepare_button_enabled = true) →
        (RefreshWorkspace host w).widget.run_button_enabled = true →
        (RefreshWorkspace host w).widget.prepare_button_enabled = true) ∧
      ((Prepare host w).widget.prepare_button_enabled = w.prepare_button_enabled ∧
        (Prepare host w).widget.run_button_enabled = w.run_button_enabled ∧
        (Run host w).widget.prepare_button_enabled = w.prepare_button_enabled ∧
        (Run host w).widget.run_button_enabled = w.run_button_enabled) := by
  have hslots := And.intro (Prepare_keeps_buttons host w) (Run_keeps_buttons host w)
  suffices hrebuild :
      ((RefreshWorkspace host w).widget.table_widget_ ≠ [] →
          (RefreshWorkspace host w).widget.run_button_enabled = true ∧
          (RefreshWorkspace host w).widget.prepare_button_enabled = true) ∧
        ((RefreshWorkspace host w).widget.run_button_enabled = false →
          (RefreshWorkspace host w).widget.table_widget_ = []) ∧
        ((RefreshWorkspace host w).fault ≠ some Fault.filesystem_error ∨
            (w.run_button_enabled = true → w.prepare_button_enabled = true) →
          (RefreshWorkspace host w).widget.run_button_enabled = true →
          (RefreshWorkspace host w).widget.prepare_button_enabled = true) from
    ⟨hrebuild.1, hrebuild.2.1, hrebuild.2.2,
      hslots.1.1, hslots.1.2, hslots.2.1, hslots.2.2⟩
  rcases RefreshWorkspace_cases host w with
    ⟨_, hout⟩ | ⟨_, hout⟩ | ⟨_, _, hout⟩ | ⟨_, _, hout⟩ |
    ⟨_, _, _, hout⟩ | ⟨_, _, _, _, hout⟩
  · rw [hout]
    refine ⟨fun h => absurd rfl h, fun _ => rfl, ?_⟩
    rintro (h | h)
    · exact absurd rfl h
    · exact h
  · rw [hout]
    refine ⟨fun h => absurd rfl h, fun _ => rfl, fun _ h => ?_⟩
    simp at h
  · rw [hout]
    exact ⟨fun h => absurd rfl h, fun _ => rfl, fun _ _ => rfl⟩
  · rw [hout]
    exact ⟨fun h => absurd rfl h, fun _ => rfl, fun _ _ => rfl⟩
  · rw [hout]
    exact ⟨fun h => absurd rfl h, fun _ => rfl, fun _ _ => rfl⟩
  · rw [hout]
    refine ⟨fun _ => ⟨rfl, rfl⟩, fun h => ?_, fun _ _ => rfl⟩
    simp at h

/-- C2 fails on the code: with a directory as workspace and a reconstruction
of one registered image, `Prepare` shows the message box and then constructs
and starts the undistorter all the same; without a reconstruction it shows
the message box and then dereferences the null pointer. -/
theorem Prepare_launches_with_one_registered_image :
    Prepare (workspaceHost true) (freshWidget "/ws" (some ⟨1⟩)) =
        ⟨{ freshWidget "/ws" (some ⟨1⟩) with
            message_boxes := ["No reconstruction selected in main window"]
            thread_control_widget_ :=
              [{ progress_text := "Preparing..."
                 stoppable := true
                 thread :=
                   { job := ThreadJob.COLMAPUndistorter ⟨1⟩ "/photos" "/ws"
                     callbacks := [(ThreadCallback.FINISHED_CALLBACK,
                       Callback.trigger_refresh_workspace_action)] } }] }, none⟩ ∧
      Prepare (workspaceHost true) (freshWidget "/ws" none) =
        ⟨{ freshWidget "/ws" none with
            message_boxes := ["No reconstruction selected in main window"] },
          some Fault.null_dereference⟩ := by
  decide

/-- C8: with a directory as workspace path, `Run` on a build without CUDA
shows the message box "CUDA not supported" and changes nothing else (no
thread is constructed or started); on a build with CUDA it starts one
patch-match processor carrying exactly one callback, on `FINISHED_CALLBACK`,
whose invocation is the rebuild. -/
theorem Run_requires_cuda (host : Host) (w : MultiViewStereoWidget)
    (hdir : host.is_directory w.workspace_path_text_ = Except.ok true) :
    (host.CUDA_ENABLED = false →
        Run host w =
          ⟨{ w with message_boxes := w.message_boxes ++ ["CUDA not supported"] }, none⟩) ∧
      (host.CUDA_ENABLED = true →
        ∃ (thread : Thread) (callback : Callback),
          Run host w =
            ⟨{ w with thread_control_widget_ :=
                w.thread_control_widget_ ++ [⟨"Processing...", true, thread⟩] }, none⟩ ∧
          thread.job = ThreadJob.PatchMatchProcessor w.options_.patch_match
            w.workspace_path_text_ "COLMAP" w.options_.max_image_size ∧
          thread.callbacks = [(ThreadCallback.FINISHED_CALLBACK, callback)] ∧
          callback.invoke = RefreshWorkspace) := by
  obtain ⟨hpath, hne⟩ := GetWorkspacePath_of_directory host w hdir
  constructor
  · intro hcuda
    simp [Run, hpath, hne, hcuda, MultiViewStereoWidget.critical]
  · intro hcuda
    refine ⟨{ job := ThreadJob.PatchMatchProcessor w.options_.patch_match
                w.workspace_path_text_ "COLMAP" w.options_.max_image_size
              callbacks := [(ThreadCallback.FINISHED_CALLBACK,
                Callback.trigger_refresh_workspace_action)] },
      Callback.trigger_refresh_workspace_action, ?_, rfl, rfl, rfl⟩
    simp [Run, hpath, hne, hcuda, MultiViewStereoWidget.StartThread]

/-- C8, witness: the prepared workspace on a build without CUDA and on a
build with it. -/
theorem Run_requires_cuda_witness :
    (workspaceHost false).is_directory "/ws" = Except.ok true ∧
      Run (workspaceHost false) (freshWidget "/ws" none) =
        ⟨{ freshWidget "/ws" none with message_boxes := ["CUDA not supported"] }, none⟩ ∧
      Run (workspaceHost true) (freshWidget "/ws" none) =
        ⟨{ freshWidget "/ws" none with
            thread_control_widget_ :=
              [{ progress_text := "Processing..."
                 stoppable := true
                 thread :=
                   { job := ThreadJob.PatchMatchProcessor
                       (freshWidget "/ws" none).options_.patch_match "/ws" "COLMAP" 1600
                     callbacks := [(ThreadCallback.FINISHED_CALLBACK,
                       Callback.trigger_refresh_workspace_action)] } }] }, none⟩ := by
  refine ⟨by rfl, ?_, ?_⟩
  · exact (Run_requires_cuda (workspaceHost false) (freshWidget "/ws" none) (by rfl)).1 rfl
  · obtain ⟨thread, callback, hrun, hjob, hcallbacks, _⟩ :=
      (Run_requires_cuda (workspaceHost true) (freshWidget "/ws" none) (by rfl)).2 rfl
    cases callback
    cases thread
    simp only at hjob hcallbacks
    rw [hrun, hjob, hcallbacks]
    rfl

/-- C9, as the specification states it, fails: on a workspace path whose
status cannot be determined, and which therefore is no directory for the
widget, `Prepare` and `Run` end on the `filesystem_error` the probe raises,
before any message box: no invalid-workspace error is surfaced. -/
theorem launch_raises_on_undeterminable_path :
    (failingHost "/mnt/ws").status "/mnt/ws" ≠ file_type.directory_file ∧
      Prepare (failingHost "/mnt/ws") (freshWidget "/mnt/ws" (some ⟨5⟩)) =
        ⟨freshWidget "/mnt/ws" (some ⟨5⟩), some Fault.filesystem_error⟩ ∧
      Run (failingHost "/mnt/ws") (freshWidget "/mnt/ws" (some ⟨5⟩)) =
        ⟨freshWidget "/mnt/ws" (some ⟨5⟩), some Fault.filesystem_error⟩ ∧
      (Prepare (failingHost "/mnt/ws")
        (freshWidget "/mnt/ws" (some ⟨5⟩))).widget.message_boxes = [] ∧
      (Run (failingHost "/mnt/ws")
        (freshWidget "/mnt/ws" (some ⟨5⟩))).widget.message_boxes = [] := by
  decide

/-- C9, amended: when the workspace path is not a directory (the empty path
included), `Prepare` and `Run` start no thread, whatever the reconstruction,
the build and the button flags are; when the status of the path can be
determined they each show the message box "Invalid workspace path" and
change nothing else, and when it cannot they end on the raised
`filesystem_error` with the widget unchanged. -/
theorem launch_rejected_on_invalid_workspace (host : Host) (w : MultiViewStereoWidget)
    (hinvalid : host.status w.workspace_path_text_ ≠ file_type.directory_file) :
    (Prepare host w).widget.thread_control_widget_ = w.thread_control_widget_ ∧
      (Run host w).widget.thread_control_widget_ = w.thread_control_widget_ ∧
      (host.status w.workspace_path_text_ ≠ file_type.status_error →
        Prepare host w =
          ⟨{ w with message_boxes := w.message_boxes ++ ["Invalid workspace path"] },
            none⟩ ∧
        Run host w =
          ⟨{ w with message_boxes := w.message_boxes ++ ["Invalid workspace path"] },
            none⟩) ∧
      (host.status w.workspace_path_text_ = file_type.status_error →
        Prepare host w = ⟨w, some Fault.filesystem_error⟩ ∧
        Run host w = ⟨w, some Fault.filesystem_error⟩) := by
  rcases GetWorkspacePath_cases host w with ⟨hstatus, h⟩ | ⟨hdir, h⟩ | ⟨hdir, _⟩
  · have hp : Prepare host w = ⟨w, some Fault.filesystem_error⟩ := by
      simp [Prepare, h]
    have hr : Run host w = ⟨w, some Fault.filesystem_error⟩ := by
      simp [Run, h]
    rw [hp, hr]
    exact ⟨rfl, rfl, fun hne => absurd hstatus hne, fun _ => ⟨rfl, rfl⟩⟩
  · have hstatus := ((is_directory_eq_ok_false _ _).1 hdir).1
    have hp : Prepare host w =
        ⟨{ w with message_boxes := w.message_boxes ++ ["Invalid workspace path"] },
          none⟩ := by
      simp [Prepare, h, MultiViewStereoWidget.critical]
    have hr : Run host w =
        ⟨{ w with message_boxes := w.message_boxes ++ ["Invalid workspace path"] },
          none⟩ := by
      simp [Run, h, MultiViewStereoWidget.critical]
    rw [hp, hr]
    exact ⟨rfl, rfl, fun _ => ⟨rfl, rfl⟩, fun he => absurd he hstatus⟩
  · exact absurd ((is_directory_eq_ok_true _ _).1 hdir) hinvalid

/-- C9, witness: the empty path, and a path that does not exist, on a build
with CUDA, with a reconstruction of five registered images and both buttons
enabled by an earlier rebuild. -/
theorem launch_rejected_on_invalid_workspace_witness :
    (workspaceHost true).status "" = file_type.file_not_found ∧
      (workspaceHost true).status "/nowhere" = file_type.file_not_found ∧
      Prepare (workspaceHost true)
        { freshWidget "" (some ⟨5⟩) with
            prepare_button_enabled := true, run_button_enabled := true } =
        ⟨{ freshWidget "" (some ⟨5⟩) with
            prepare_button_enabled := true
            run_button_enabled := true
            message_boxes := ["Invalid workspace path"] }, none⟩ ∧
      Run (workspaceHost true)
        { freshWidget "/nowhere" (some ⟨5⟩) with
            prepare_button_enabled := true, run_button_enabled := true } =
        ⟨{ freshWidget "/nowhere" (some ⟨5⟩) with
            prepare_button_enabled := true
            run_button_enabled := true
            message_boxes := ["Invalid workspace path"] }, none⟩ := by
  have hempty := launch_rejected_on_invalid_workspace (workspaceHost true)
    { freshWidget "" (some ⟨5⟩) with
        prepare_button_enabled := true, run_button_enabled := true } (by decide)
  have hnowhere := launch_rejected_on_invalid_workspace (workspaceHost true)
    { freshWidget "/nowhere" (some ⟨5⟩) with
        prepare_button_enabled := true, run_button_enabled := true } (by decide)
  exact ⟨by decide, by decide, (hempty.2.2.1 (by decide)).1, (hnowhere.2.2.1 (by decide)).2⟩

end colmap
